import Mathlib

/-
Verification development for the falcon HTTP dispatch layer.
The Go sources are shallowly embedded: structs become Lean structures,
in-place mutation becomes explicit state passing, Go maps become
association lists (a nil map is modelled as an Option that is none),
and the http.ResponseWriter is modelled by an explicit writer state
recording headers, the first written status code, and the body.
Functions that are not part of the provided sources are modelled from
the specification and marked as such in their doc comments.
-/

namespace Falcon

/-- Association-list update with Go map set semantics: replace the first
binding of the key, otherwise append a new binding. -/
def setAssoc : List (String × String) → String → String → List (String × String)
  | [], k, v => [(k, v)]
  | (k0, v0) :: rest, k, v =>
    if k0 == k then (k, v) :: rest else (k0, v0) :: setAssoc rest k v

/-- Association-list lookup: first binding of the key, if any. -/
def getAssoc : List (String × String) → String → Option String
  | [], _ => none
  | (k0, v0) :: rest, k => if k0 == k then some v0 else getAssoc rest k

/-- State of an http.ResponseWriter as observed by httptest.NewRecorder:
the header map, the status code of the first WriteHeader call (if any),
and the accumulated body. -/
structure Writer where
  headers : List (String × String)
  status : Option Nat
  body : String
deriving DecidableEq

/-- Header().Set on the response writer: replaces any existing value. -/
def Writer.setHeader (w : Writer) (k v : String) : Writer :=
  { w with headers := setAssoc w.headers k v }

/-- WriteHeader: only the first call takes effect, as in net/http. -/
def Writer.writeHeader (w : Writer) (code : Nat) : Writer :=
  match w.status with
  | some _ => w
  | none => { w with status := some code }

/-- Write: appends to the body; an implicit 200 status is recorded when no
WriteHeader call preceded the first write, as in net/http. -/
def Writer.write (w : Writer) (s : String) : Writer :=
  let w1 := match w.status with
    | some _ => w
    | none => { w with status := some 200 }
  { w1 with body := w1.body ++ s }

/-- The empty response-writer state of a fresh request. -/
def Writer.empty : Writer := { headers := [], status := none, body := "" }

/-- Incoming http.Request restricted to what the embedded code reads:
method, header map and cookies. -/
structure Request where
  Method : String
  Headers : List (String × String)
  Cookies : List (String × String)
deriving DecidableEq

/-- Header.Get: empty string when the header is absent, as in net/http. -/
def Request.headerGet (r : Request) (k : String) : String :=
  (getAssoc r.Headers k).getD ""

/-- Request.Cookie: none models the ErrNoCookie error return. -/
def Request.cookieGet (r : Request) (k : String) : Option String :=
  getAssoc r.Cookies k

/-- Response is the unified handler return type (server.Response).
Details is the type-erased payload, modelled as an optional
pre-serialized JSON fragment; none models a nil Details. -/
structure Response where
  Success : Bool
  Message : String
  Details : Option String
  Code : Nat
deriving DecidableEq

/-- Context is the per-request carrier (server.Context): request, response
writer, route parameters, generic key/value store and the handled flag.
Params is Option-valued because a Go map can be nil; writing a key into a
nil map is a runtime fault, which callers of the model must surface. -/
structure Context where
  Request : Request
  Writer : Writer
  Params : Option (List (String × String))
  Values : List (String × String)
  Handled : Bool
deriving DecidableEq

/-- writeResponse from the sources: when the context is already handled it
returns at once; otherwise it sets Content-Type, writes the status code and
the body, and marks the context handled. -/
def Context.writeResponse (c : Context) (code : Nat) (contentType : String) (body : String) : Context :=
  if c.Handled then c
  else
    { c with
      Writer := ((c.Writer.setHeader "Content-Type" contentType).writeHeader code).write body,
      Handled := true }

/-- Modelled from the spec: JSON serialization of a Response with the field
order of the struct and omitempty on Details, matching the bodies asserted
by the response tests. -/
def encodeResponse (r : Response) : String :=
  "\x7b\"success\":" ++ (cond r.Success "true" "false")
    ++ ",\"message\":\"" ++ r.Message ++ "\""
    ++ (match r.Details with
        | none => ""
        | some d => ",\"details\":" ++ d)
    ++ ",\"code\":" ++ toString r.Code ++ "\x7d"

/-- Modelled from the spec: the JSON response helper (its body is not among
the provided sources; the response tests pin its behavior). It builds the
Response, writes it as application/json through writeResponse, and returns
the Response. -/
def Context.JSON (c : Context) (success : Bool) (message : String) (details : Option String) (code : Nat) : Response × Context :=
  let r : Response := { Success := success, Message := message, Details := details, Code := code }
  (r, c.writeResponse code "application/json" (encodeResponse r))

/-- Modelled from the spec: ErrorJSON delegates to JSON with Success false,
as pinned by TestErrorJSON. -/
def Context.ErrorJSON (c : Context) (message : String) (details : Option String) (code : Nat) : Response × Context :=
  c.JSON false message details code

/-- writeErrorResponse from the sources: returns at once when handled,
otherwise writes the standardized JSON error response. -/
def Context.writeErrorResponse (c : Context) (code : Nat) (message : String) (err : String) : Context :=
  if c.Handled then c
  else (c.JSON false message (some err) code).2

/-- Modelled from the spec: the plain-text response helper, named String in
the sources (renamed here because that name shadows the Lean String type;
body not among the provided sources, pinned by the response tests, which
assert the text/plain content type, the echoed body and the Message field). -/
def Context.StringResp (c : Context) (code : Nat) (s : String) : Response × Context :=
  ({ Success := decide (code < 400), Message := s, Details := none, Code := code },
   c.writeResponse code "text/plain" s)

/-- Modelled from the spec: the HTML response helper, pinned by the
response tests (text/html content type, Message "HTML written"). -/
def Context.HTML (c : Context) (code : Nat) (s : String) : Response × Context :=
  ({ Success := true, Message := "HTML written", Details := none, Code := code },
   c.writeResponse code "text/html" s)

/-- Modelled from the spec: the Blob response helper, pinned by the
response tests (caller-chosen content type, Message "Blob written"). -/
def Context.Blob (c : Context) (code : Nat) (data : String) (contentType : String) : Response × Context :=
  ({ Success := true, Message := "Blob written", Details := none, Code := code },
   c.writeResponse code contentType data)

/-- TemplateRenderer restricted to what Context.Render observes: rendering
a named template with data either writes an output string or fails with an
error message (abstracting html/template execution). -/
structure TemplateRenderer where
  render : String → String → Except String String

/-- Model of http.Error from net/http: sets Content-Type text/plain,
the nosniff header, writes the status code and the message with a
trailing newline. -/
def httpError (w : Writer) (msg : String) (code : Nat) : Writer :=
  (((w.setHeader "Content-Type" "text/plain; charset=utf-8").setHeader
      "X-Content-Type-Options" "nosniff").writeHeader code).write (msg ++ "\n")

/-- Render from the sources (template.go): returns at once when handled;
otherwise sets the HTML content type, writes the status when it is not 200,
runs the renderer, and on error emits the http.Error branch WITHOUT setting
the handled flag, while on success it writes the output and sets it. -/
def Context.Render (c : Context) (renderer : TemplateRenderer) (code : Nat) (name : String) (data : String) : Response × Context :=
  if c.Handled then
    ({ Success := false, Message := "Response already handled", Details := none, Code := code }, c)
  else
    let w1 := c.Writer.setHeader "Content-Type" "text/html; charset=utf-8"
    let w2 := if code ≠ 200 then w1.writeHeader code else w1
    match renderer.render name data with
    | .error e =>
      ({ Success := false, Message := "Template render error", Details := none, Code := 500 },
       { c with Writer := httpError w2 ("Template error: " ++ e) 500 })
    | .ok out =>
      ({ Success := true, Message := "Template rendered: " ++ name, Details := none, Code := code },
       { c with Writer := w2.write out, Handled := true })

/-- Boolean prefix test on strings, modelling strings.HasPrefix via the
underlying character lists (structural, so that closed lookups evaluate
inside the kernel). -/
def strHasPre (pre s : String) : Bool :=
  pre.data.isPrefixOf s.data

/-- Suffix test on strings, modelling strings.HasSuffix. -/
def strHasSuffix (suf s : String) : Bool :=
  suf.data.isSuffixOf s.data

/-- Drop the last character of a string, modelling the dropRight 1 used to
strip a trailing wildcard. -/
def strDropLast (s : String) : String :=
  String.mk s.data.dropLast

/-- Lower-casing a string character by character, modelling the simple
fold of strings.EqualFold for ASCII letters. -/
def strToLower (s : String) : String :=
  String.mk (s.data.map Char.toLower)

/-- Join a list of strings with a separator, modelling strings.Join. -/
def strJoin (sep : String) : List String → String
  | [] => ""
  | [x] => x
  | x :: y :: rest => x ++ sep ++ strJoin sep (y :: rest)

/-- Split a character list at every occurrence of the separator. -/
def splitChars (sep : Char) : List Char → List (List Char)
  | [] => [[]]
  | ch :: rest =>
    match splitChars sep rest with
    | [] => [[]]
    | cur :: rs => if ch = sep then [] :: cur :: rs else (ch :: cur) :: rs

/-- Pattern segment: a literal or a named parameter (prefix colon). -/
inductive Seg where
  | lit (s : String)
  | param (name : String)
deriving DecidableEq

/-- Modelled from the spec: segment parsing for route registration; a
segment starting with a colon is a named parameter. -/
def parseSegment (s : String) : Seg :=
  if strHasPre ":" s then .param (String.mk (s.data.drop 1)) else .lit s

/-- Modelled from the spec: split a path into its slash-delimited
non-empty segments. -/
def splitPath (p : String) : List String :=
  ((splitChars '/' p.data).map String.mk).filter (fun s => s ≠ "")

/-- Registered route: method, compiled pattern, and the handler, identified
by a numeric id since handler identity is all the router stores. -/
structure Route where
  method : String
  pattern : List Seg
  handler : Nat
deriving DecidableEq

/-- Modelled from the spec (section 4.1): a pattern matches a path only if
the segment counts are identical, literals match verbatim and each
parameter binds one non-empty segment to its name. -/
def matchSegs : List Seg → List String → Option (List (String × String))
  | [], [] => some []
  | .lit l :: ps, s :: ss =>
    if l = s then matchSegs ps ss else none
  | .param n :: ps, s :: ss =>
    if s ≠ "" then (matchSegs ps ss).map (fun m => (n, s) :: m) else none
  | _, _ => none

/-- Router state: routes in registration order. -/
structure Router where
  routes : List Route
deriving DecidableEq

/-- Modelled from the spec: Handle appends a compiled route in registration
order. -/
def Router.handle (r : Router) (method path : String) (h : Nat) : Router :=
  { routes := r.routes ++ [{ method := method, pattern := (splitPath path).map parseSegment, handler := h }] }

/-- Modelled from the spec: walk the routes in registration order; a route
is considered only when its method equals the request method, and the first
structural match wins. -/
def findHandlerAux : List Route → String → List String → Option (Nat × List (String × String))
  | [], _, _ => none
  | rt :: rs, m, segs =>
    if rt.method = m then
      match matchSegs rt.pattern segs with
      | some ps => some (rt.handler, ps)
      | none => findHandlerAux rs m segs
    else findHandlerAux rs m segs

/-- Modelled from the spec: FindHandler splits the path and scans the
registered routes; none is the not-found signal (nil handler, nil params). -/
def Router.FindHandler (r : Router) (method path : String) : Option (Nat × List (String × String)) :=
  findHandlerAux r.routes method (splitPath path)

/-- Handler type used by the middleware embedding: a handler consumes a
context and returns the Response together with the context after its
mutations. -/
def HandlerFn : Type := Context → Response × Context

/-- Middleware wraps a handler, as in middleware/types.go. The chain
builder below is stated polymorphically so that it can also be run on
instrumented handler types that record execution traces. -/
def MiddlewareFn : Type := HandlerFn → HandlerFn

/-- Modelled from the spec (section 4.3): the chain builder folds the
ordered middleware list around the base handler, the first-listed
middleware wrapping first, producing mw0 (mw1 (... (base))). -/
def buildChain {H : Type} : List (H → H) → H → H
  | [], base => base
  | mw :: rest, base => mw (buildChain rest base)

/-- Instrumented handler type for observing execution order: a handler is
a function on a log of visited names. -/
def TraceH : Type := List String → List String

/-- Trace middleware: records its name on the way in, then invokes the
wrapped handler. -/
def traceMW (name : String) : TraceH → TraceH :=
  fun next log => next (log ++ [name])

/-- Short-circuiting middleware: records its name and returns without
invoking the wrapped handler (the early-return case). -/
def stopMW (name : String) : TraceH → TraceH :=
  fun _ log => log ++ [name]

/-- Instrumented base handler: records its name. -/
def baseTrace (name : String) : TraceH :=
  fun log => log ++ [name]

/-- Modelled from the spec (sections 4.4 and 6): a conditional middleware
applies when its pattern matches the request path exactly, or, when the
pattern ends in the wildcard star, when the pattern minus the star is a
prefix of the path. -/
def condApplies (pattern path : String) : Bool :=
  if strHasSuffix "*" pattern then strHasPre (strDropLast pattern) path
  else pattern == path

/-- CORSConfig from middleware/types.go. -/
structure CORSConfig where
  AllowOrigins : List String
  AllowMethods : List String
  AllowHeaders : List String
deriving DecidableEq

/-- Model of strings.EqualFold restricted to simple case folding. -/
def eqFold (a b : String) : Bool :=
  strToLower a == strToLower b

/-- Default filling at the start of CORSWithConfig: empty lists are
replaced by the documented defaults. -/
def corsDefaults (cfg : CORSConfig) : CORSConfig :=
  { AllowOrigins := if cfg.AllowOrigins.isEmpty then ["*"] else cfg.AllowOrigins,
    AllowMethods :=
      if cfg.AllowMethods.isEmpty then
        ["GET", "POST", "PUT", "PATCH", "DELETE", "OPTIONS"]
      else cfg.AllowMethods,
    AllowHeaders :=
      if cfg.AllowHeaders.isEmpty then ["Content-Type", "Authorization"]
      else cfg.AllowHeaders }

/-- Header mutations of CORSWithConfig that happen on every request: the
allow-origin header when the Origin header matches an allowed origin
(first match wins, set once), then the allow-methods, allow-headers and
allow-credentials headers. -/
def corsApplyHeaders (cfg : CORSConfig) (c : Context) : Context :=
  let origin := c.Request.headerGet "Origin"
  let w1 :=
    if origin ≠ "" ∧ cfg.AllowOrigins.any (fun o => o == "*" || eqFold o origin) then
      c.Writer.setHeader "Access-Control-Allow-Origin" origin
    else c.Writer
  let w2 := ((w1.setHeader "Access-Control-Allow-Methods" (strJoin ", " cfg.AllowMethods)).setHeader
      "Access-Control-Allow-Headers" (strJoin ", " cfg.AllowHeaders)).setHeader
      "Access-Control-Allow-Credentials" "true"
  { c with Writer := w2 }

/-- CORSWithConfig from middleware/cors.go: fills defaults, sets the CORS
headers, answers OPTIONS preflights itself with 204 and the handled flag
set, and otherwise passes the context on to the wrapped handler. -/
def CORSWithConfig (cfg : CORSConfig) (next : HandlerFn) (c : Context) : Response × Context :=
  let c1 := corsApplyHeaders (corsDefaults cfg) c
  if c1.Request.Method = "OPTIONS" then
    ({ Success := true, Message := "CORS preflight", Details := none, Code := 204 },
     { c1 with Writer := c1.Writer.writeHeader 204, Handled := true })
  else next c1

/-- CSRFConfig from middleware/types.go; Expiry is carried in seconds and
the optional error handler is a handler on the context. -/
structure CSRFConfig where
  TokenHeader : String
  TokenCookie : String
  ContextKey : String
  Expiry : Nat
  Secret : String
  SkipMethods : List String
  ErrorHandler : Option (Context → Response × Context)
  CookieSecure : Bool
  CookieHTTPOnly : Bool

/-- defaultCSRFConfig from middleware/csrf.go. -/
def defaultCSRFConfig : CSRFConfig :=
  { TokenHeader := "X-CSRF-Token",
    TokenCookie := "csrf_token",
    ContextKey := "csrf_token",
    Expiry := 24 * 60 * 60,
    Secret := "supersecretkey",
    SkipMethods := ["GET", "HEAD", "OPTIONS", "TRACE"],
    ErrorHandler := none,
    CookieSecure := true,
    CookieHTTPOnly := true }

/-- Error message of ErrCSRFInvalid. -/
def errCSRFInvalidMsg : String := "invalid CSRF token"

/-- Modelled from the spec: deterministic token generation from the secret
(the HMAC generation helper is outside the provided sources). -/
def genCSRFToken (secret : String) : String :=
  "hmac:" ++ secret

/-- Modelled from the spec: getOrCreateCSRFToken (outside the provided
sources) reuses the token already carried by the request cookie when
present and otherwise generates a fresh one from the secret. -/
def getOrCreateCSRFToken (c : Context) (cfg : CSRFConfig) : String :=
  match c.Request.cookieGet cfg.TokenCookie with
  | some v => v
  | none => genCSRFToken cfg.Secret

/-- Modelled from the spec: validateCSRFToken (outside the provided
sources) accepts the client token exactly when it equals the server-side
token derived from the secret; the documented 403 branch of the middleware
shows that validation can fail. -/
def validateCSRFToken (secret serverToken clientToken : String) : Bool :=
  let _ := secret
  clientToken == serverToken

/-- Client token extraction of CSRFWithConfig: the configured header,
falling back to the configured cookie. -/
def clientTokenOf (c : Context) (cfg : CSRFConfig) : String :=
  let h := c.Request.headerGet cfg.TokenHeader
  if h ≠ "" then h else ((c.Request.cookieGet cfg.TokenCookie).getD "")

/-- Model of http.SetCookie: appends a Set-Cookie header carrying the
serialized name=value pair (attributes elided as they are not observed). -/
def setCookieW (w : Writer) (name value : String) : Writer :=
  { w with headers := w.headers ++ [("Set-Cookie", name ++ "=" ++ value)] }

/-- Outcome of one CSRF middleware run, separating the source branches:
a safe-method skip straight into the wrapped handler, a validation
rejection, the runtime fault of writing into a nil Params map, or the
normal pass into the wrapped handler after the token was stored. -/
inductive CSRFOutcome where
  | skipped (r : Response) (c : Context)
  | rejected (r : Response) (c : Context)
  | nilMapFault
  | passed (r : Response) (c : Context)
deriving DecidableEq

/-- CSRFWithConfig from middleware/csrf.go: safe methods go straight to
the wrapped handler; otherwise a supplied client token is validated and a
failure is rejected (custom handler or 403 text response); otherwise the
token is stored in the cookie and assigned into the Params map - a nil
Params map makes that assignment fault - and the wrapped handler runs. -/
def CSRFWithConfig (cfg : CSRFConfig) (next : HandlerFn) (c : Context) : CSRFOutcome :=
  if cfg.SkipMethods.contains c.Request.Method then
    let rc := next c
    .skipped rc.1 rc.2
  else
    let clientToken := clientTokenOf c cfg
    if clientToken ≠ "" ∧ validateCSRFToken cfg.Secret (getOrCreateCSRFToken c cfg) clientToken = false then
      match cfg.ErrorHandler with
      | some eh =>
        let rc := eh c
        .rejected rc.1 rc.2
      | none =>
        let rc := c.StringResp 403 errCSRFInvalidMsg
        .rejected rc.1 rc.2
    else
      let token := getOrCreateCSRFToken c cfg
      let c1 := { c with Writer := setCookieW c.Writer cfg.TokenCookie token }
      match c1.Params with
      | none => .nilMapFault
      | some ps =>
        let c2 := { c1 with Params := some (setAssoc ps cfg.ContextKey token) }
        let rc := next c2
        .passed rc.1 rc.2

/-- Context handed to the wrapped handler on the non-rejected unsafe path
of the CSRF middleware: the cookie is set on the writer and the token is
assigned into the Params map under the configured context key; the Values
store is untouched. -/
def csrfPassCtx (cfg : CSRFConfig) (c : Context) (ps : List (String × String)) : Context :=
  { c with
    Writer := setCookieW c.Writer cfg.TokenCookie (getOrCreateCSRFToken c cfg),
    Params := some (setAssoc ps cfg.ContextKey (getOrCreateCSRFToken c cfg)) }

/-- Field kinds handled by setFieldValue: string, the integer kinds, bool,
the float kinds, and everything else (unsupported). -/
inductive FieldKind where
  | kString
  | kInt
  | kBool
  | kFloat
  | kUnsupported
deriving DecidableEq

/-- One struct field as reflection observes it: its Go name, its form tag
(empty when absent), whether it is settable (false for unexported fields),
its kind and its current value, represented canonically as a string since
no arithmetic is ever performed on it. -/
structure GoField where
  name : String
  tag : String
  canSet : Bool
  kind : FieldKind
  value : String
deriving DecidableEq

/-- Destination argument of bindFormToStruct: either a pointer to a struct
with its field list, or anything else (non-pointer, or pointer to a
non-struct). -/
inductive GoValue where
  | structPtr (fields : List GoField)
  | notStructPtr
deriving DecidableEq

/-- Model of strconv.ParseBool: the exact accepted spellings. -/
def parseGoBool (s : String) : Option Bool :=
  if ["1", "t", "T", "TRUE", "true", "True"].contains s then some true
  else if ["0", "f", "F", "FALSE", "false", "False"].contains s then some false
  else none

/-- Decimal digit run to a number: none when empty or a non-digit occurs. -/
def parseNatChars (l : List Char) : Option Nat :=
  if l ≠ [] ∧ l.all Char.isDigit then
    some (l.foldl (fun acc ch => acc * 10 + (ch.toNat - 48)) 0)
  else none

/-- Model of strconv.ParseInt with base 10 and 64-bit range: an optional
sign followed by digits, rejected outside the int64 range. -/
def parseGoInt (s : String) : Option Int :=
  let signed : Option Int :=
    match s.data with
    | '-' :: rest => (parseNatChars rest).map (fun n => -(n : Int))
    | '+' :: rest => (parseNatChars rest).map (fun n => (n : Int))
    | l => (parseNatChars l).map (fun n => (n : Int))
  match signed with
  | none => none
  | some n => if -(2 ^ 63) ≤ n ∧ n < 2 ^ 63 then some n else none

/-- Simplified model of float parsing as sign plus digits with at most one
decimal point; the frame properties proved below do not depend on which
strings are accepted. -/
def parseGoFloatOk (s : String) : Bool :=
  let t := match s.data with
    | '+' :: rest => rest
    | '-' :: rest => rest
    | l => l
  t ≠ [] && t.all (fun ch => ch.isDigit || ch == '.')
    && (t.filter (fun ch => ch == '.')).length ≤ 1

/-- setFieldValue from the sources: assigns the parsed form value by field
kind, failing on parse errors and unsupported kinds. -/
def setFieldValue (field : GoField) (value : String) : Except String GoField :=
  match field.kind with
  | .kString => .ok { field with value := value }
  | .kInt =>
    match parseGoInt value with
    | some n => .ok { field with value := toString n }
    | none => .error "invalid integer"
  | .kBool =>
    match parseGoBool value with
    | some b => .ok { field with value := cond b "true" "false" }
    | none => .error "invalid bool"
  | .kFloat =>
    if parseGoFloatOk value then .ok { field with value := value }
    else .error "invalid float"
  | .kUnsupported => .error "unsupported field type"

/-- Effective form key of a field: the form tag when present, otherwise
the lowercased field name, as in bindFormToStruct. -/
def tagNameOf (f : GoField) : String :=
  if f.tag == "" then strToLower f.name else f.tag

/-- Model of url.Values.Get: the first value bound to the key, or the
empty string. -/
def formGet (values : List (String × String)) (k : String) : String :=
  (getAssoc values k).getD ""

/-- Field loop of bindFormToStruct: unsettable fields, dash-tagged fields
and fields with an absent or empty form value are skipped unchanged; a
field whose assignment fails stops the loop with an error, leaving the
remaining fields unchanged. -/
def bindFields (values : List (String × String)) : List GoField → List GoField × Option String
  | [] => ([], none)
  | f :: rest =>
    if ¬ f.canSet then
      let r := bindFields values rest
      (f :: r.1, r.2)
    else
      let tagName := tagNameOf f
      if tagName == "-" then
        let r := bindFields values rest
        (f :: r.1, r.2)
      else
        let formValue := formGet values tagName
        if formValue == "" then
          let r := bindFields values rest
          (f :: r.1, r.2)
        else
          match setFieldValue f formValue with
          | .error e => (f :: rest, some ("failed to set field " ++ f.name ++ ": " ++ e))
          | .ok f1 =>
            let r := bindFields values rest
            (f1 :: r.1, r.2)

/-- bindFormToStruct from the sources: rejects destinations that are not a
pointer to a struct, otherwise runs the field loop; the returned GoValue is
the (possibly partially) mutated destination and the Option is the error. -/
def bindFormToStruct (values : List (String × String)) : GoValue → GoValue × Option String
  | .notStructPtr => (.notStructPtr, some "destination must be a pointer to struct")
  | .structPtr fs =>
    let r := bindFields values fs
    (.structPtr r.1, r.2)

/-- Router of the TestRouter scenario: GET /users, GET /users/:id and
POST /users/:id/update, with handlers identified as 0, 1 and 2. -/
def testRouter : Router :=
  ((({ routes := [] } : Router).handle "GET" "/users" 0).handle "GET" "/users/:id" 1).handle "POST" "/users/:id/update" 2

/-- Trivial wrapped handler used for concrete middleware runs. -/
def next0 : HandlerFn :=
  fun c => ({ Success := true, Message := "ok", Details := none, Code := 200 }, c)

/-- Plain GET request without headers or cookies. -/
def reqGet : Request := { Method := "GET", Headers := [], Cookies := [] }

/-- Plain POST request without headers or cookies. -/
def reqPost : Request := { Method := "POST", Headers := [], Cookies := [] }

/-- OPTIONS preflight request with an Origin header. -/
def reqOptions : Request :=
  { Method := "OPTIONS", Headers := [("Origin", "https://example.com")], Cookies := [] }

/-- POST request carrying a CSRF header token that cannot validate. -/
def reqEvil : Request :=
  { Method := "POST", Headers := [("X-CSRF-Token", "evil")], Cookies := [] }

/-- Context on a fresh writer with a nil Params map and an invalid token. -/
def ctxEvil : Context :=
  { Request := reqEvil, Writer := Writer.empty, Params := none, Values := [], Handled := false }

/-- Context on a fresh writer with a nil Params map and no token. -/
def ctxNoTok : Context :=
  { Request := reqPost, Writer := Writer.empty, Params := none, Values := [], Handled := false }

/-- Context on a fresh writer with an allocated (empty) Params map and no
token. -/
def ctxNoTokP : Context :=
  { Request := reqPost, Writer := Writer.empty, Params := some [], Values := [], Handled := false }

/-- CORS configuration with every list empty, forcing the in-function
defaults. -/
def cfgEmptyCORS : CORSConfig :=
  { AllowOrigins := [], AllowMethods := [], AllowHeaders := [] }

/-- Context on a fresh writer with the OPTIONS request. -/
def ctxOptions : Context :=
  { Request := reqOptions, Writer := Writer.empty, Params := some [], Values := [], Handled := false }

/-- Context on a fresh writer with the GET request. -/
def ctxGet : Context :=
  { Request := reqGet, Writer := Writer.empty, Params := some [], Values := [], Handled := false }

/-- Context with a response already written (handled flag set) and some
observable writer state. -/
def ctxHandled : Context :=
  { Request := reqGet,
    Writer := { headers := [("Content-Type", "text/plain")], status := some 200, body := "first" },
    Params := some [], Values := [], Handled := true }

/-- Fresh unhandled context used for the Render run. -/
def ctxFresh : Context :=
  { Request := reqGet, Writer := Writer.empty, Params := some [], Values := [], Handled := false }

/-- Renderer whose template execution always fails. -/
def badRenderer : TemplateRenderer := ⟨fun _ _ => .error "boom"⟩

/-- Renderer whose template execution always succeeds with a fixed body. -/
def okRenderer : TemplateRenderer := ⟨fun _ _ => .ok "<p>ok</p>"⟩

/-- Soundness of segment matching: a successful match forces identical
segment counts, and every parameter binding in the result is verbatim,
with the bound value sitting at the same index as its parameter marker. -/
theorem matchSegs_sound :
    ∀ (ps : List Seg) (ss : List String) (m : List (String × String)),
      matchSegs ps ss = some m →
      ps.length = ss.length ∧
      ∀ n v, (n, v) ∈ m →
        ∃ i, ps.get? i = some (Seg.param n) ∧ ss.get? i = some v := by
  intro ps
  induction ps with
  | nil =>
    intro ss m h
    cases ss with
    | nil =>
      simp only [matchSegs, Option.some.injEq] at h
      subst h
      simp
    | cons s ss => simp [matchSegs] at h
  | cons seg ps ih =>
    intro ss m h
    cases ss with
    | nil => cases seg <;> simp [matchSegs] at h
    | cons s ss =>
      cases seg with
      | lit l =>
        simp only [matchSegs] at h
        by_cases hls : l = s
        · rw [if_pos hls] at h
          obtain ⟨hlen, hmem⟩ := ih ss m h
          refine ⟨by simp [hlen], ?_⟩
          intro n v hv
          obtain ⟨i, h1, h2⟩ := hmem n v hv
          exact ⟨i + 1, by simpa using h1, by simpa using h2⟩
        · rw [if_neg hls] at h
          cases h
      | param pn =>
        simp only [matchSegs] at h
        by_cases hs : s = ""
        · rw [if_neg (by simp [hs])] at h
          cases h
        · rw [if_pos hs] at h
          rw [Option.map_eq_some'] at h
          obtain ⟨m0, hm0, hm⟩ := h
          obtain ⟨hlen, hmem⟩ := ih ss m0 hm0
          subst hm
          refine ⟨by simp [hlen], ?_⟩
          intro n v hv
          rcases List.mem_cons.mp hv with hhead | htail
          · obtain ⟨hn, hv2⟩ := Prod.mk.injEq .. ▸ hhead
            exact ⟨0, by simp [hn.symm], by simp [hv2.symm]⟩
          · obtain ⟨i, h1, h2⟩ := hmem n v htail
            exact ⟨i + 1, by simpa using h1, by simpa using h2⟩

/-- C1. Route lookup resolves patterns by exact segment count with
verbatim parameter binding: in the TestRouter scenario, GET /users/123
finds the parameterized handler with params id=123, POST /users is
not-found, GET /users/123/extra is not-found; and in general a successful
match has identical segment count and binds each parameter name to the
path segment at the position of its marker, verbatim. -/
theorem routerScenarioLookup :
    testRouter.FindHandler "GET" "/users/123" = some (1, [("id", "123")]) ∧
    testRouter.FindHandler "POST" "/users" = none ∧
    testRouter.FindHandler "GET" "/users/123/extra" = none ∧
    (∀ (ps : List Seg) (ss : List String) (m : List (String × String)),
      matchSegs ps ss = some m →
      ps.length = ss.length ∧
      ∀ n v, (n, v) ∈ m →
        ∃ i, ps.get? i = some (Seg.param n) ∧ ss.get? i = some v) :=
  ⟨by decide, by decide, by decide, matchSegs_sound⟩

/-- Witness for routerScenarioLookup: the general conjunct applied at a
concrete successful match, with its hypothesis discharged by evaluation. -/
theorem routerScenarioLookupWitness :
    [Seg.param "id"].length = ["123"].length ∧
    testRouter.FindHandler "GET" "/users/123" = some (1, [("id", "123")]) :=
  ⟨(routerScenarioLookup.2.2.2 [Seg.param "id"] ["123"] [("id", "123")] (by decide)).1,
   routerScenarioLookup.1⟩

/-- C2. The chain builder composes the ordered middleware list as
mw0 (mw1 (... (base))): for every pair of middleware A, B and base H the
built chain is A (B H); on instrumented handlers the execution order on
the way in is A then B then H, and when A returns without calling its
wrapped handler neither B nor H runs. -/
theorem chainBuilderOrder :
    (∀ (A B : MiddlewareFn) (H0 : HandlerFn), buildChain [A, B] H0 = A (B H0)) ∧
    buildChain [traceMW "A", traceMW "B"] (baseTrace "H") [] = ["A", "B", "H"] ∧
    buildChain [stopMW "A", traceMW "B"] (baseTrace "H") [] = ["A"] ∧
    (∀ next1 next2 : TraceH, stopMW "A" next1 = stopMW "A" next2) :=
  ⟨fun _ _ _ => rfl, by decide, by decide, fun _ _ => rfl⟩

/-- C3. Once the handled flag of a Context is true, every response-write
operation is a silent no-op: it returns a Response rather than an error
and leaves the whole context - response body and headers included -
unchanged. -/
theorem handledWritesAreNoOps :
    ∀ (c : Context), c.Handled = true →
    ∀ (code : Nat) (ct body : String) (b : Bool) (msg : String) (det : Option String)
      (s data name err : String) (tr : TemplateRenderer),
      c.writeResponse code ct body = c ∧
      (c.JSON b msg det code).2 = c ∧
      (c.ErrorJSON msg det code).2 = c ∧
      c.writeErrorResponse code msg err = c ∧
      (c.StringResp code s).2 = c ∧
      (c.HTML code s).2 = c ∧
      (c.Blob code data ct).2 = c ∧
      (c.Render tr code name data).2 = c := by
  intro c h code ct body b msg det s data name err tr
  refine ⟨?_, ?_, ?_, ?_, ?_, ?_, ?_, ?_⟩ <;>
    simp [Context.writeResponse, Context.JSON, Context.ErrorJSON,
      Context.writeErrorResponse, Context.StringResp, Context.HTML,
      Context.Blob, Context.Render, h]

/-- Witness for handledWritesAreNoOps at the concrete already-handled
context, with every operation evaluated. -/
theorem handledWritesAreNoOpsWitness :
    ctxHandled.writeResponse 500 "application/json" "again" = ctxHandled ∧
    (ctxHandled.Render okRenderer 200 "index" "").2 = ctxHandled :=
  ⟨(handledWritesAreNoOps ctxHandled rfl 500 "application/json" "again" true "m"
      none "s" "d" "index" "e" okRenderer).1,
   (handledWritesAreNoOps ctxHandled rfl 200 "application/json" "again" true "m"
      none "s" "" "index" "e" okRenderer).2.2.2.2.2.2.2⟩

/-- C4. The template-error branch of Context.Render writes bytes to the
response writer (the http.Error output, status 500) yet returns with the
handled flag still false, so a response-writing operation can leave the
flag unset after bytes were written: evaluated at a fresh context and a
failing renderer. -/
theorem renderErrorLeavesHandledFalse :
    (ctxFresh.Render badRenderer 200 "index" "").2.Writer.body = "Template error: boom\n" ∧
    (ctxFresh.Render badRenderer 200 "index" "").2.Writer.status = some 500 ∧
    (ctxFresh.Render badRenderer 200 "index" "").2.Handled = false ∧
    (ctxFresh.Render okRenderer 200 "index" "").2.Handled = true := by
  refine ⟨by decide, by decide, by decide, by decide⟩

/-- Route scanning only ever consults the routes registered under the
request method: filtering the route list down to that method first does
not change the result. -/
theorem findHandlerAux_filter :
    ∀ (routes : List Route) (m : String) (segs : List String),
      findHandlerAux routes m segs =
        findHandlerAux (routes.filter (fun rt => rt.method == m)) m segs := by
  intro routes m segs
  induction routes with
  | nil => rfl
  | cons rt rs ih =>
    by_cases h : rt.method = m
    · have hb : (rt.method == m) = true := by simp [h]
      cases hm : matchSegs rt.pattern segs <;>
        simp [findHandlerAux, List.filter_cons, hb, h, hm, ih]
    · have hb : (rt.method == m) = false := by simp [h]
      simp [findHandlerAux, List.filter_cons, hb, h, ih]

/-- C5. Lookup never falls back to a pattern registered under another
method: the result of FindHandler depends only on the routes whose method
equals the request method, so a path that matches only under a different
method is reported through the single not-found signal (there is no
separate method-not-allowed result in the lookup result type); in the
TestRouter scenario POST /users is not-found while GET /users is found. -/
theorem lookupNeverCrossesMethods :
    (∀ (r : Router) (m p : String),
      r.FindHandler m p =
        findHandlerAux (r.routes.filter (fun rt => rt.method == m)) m (splitPath p)) ∧
    testRouter.FindHandler "POST" "/users" = none ∧
    testRouter.FindHandler "GET" "/users" = some (0, []) :=
  ⟨fun r m p => findHandlerAux_filter r.routes m (splitPath p),
   by decide, by decide⟩

/-- C6. A conditional middleware whose pattern ends in the wildcard star
applies to exactly the paths whose character sequence is the pattern
prefix followed by a (possibly empty) remainder - the prefix itself or any
sub-path under it: the pattern /api/star applies to /api/v1/users and does
not apply to /public/data. -/
theorem condWildcardCharacterization :
    condApplies "/api/*" "/api/v1/users" = true ∧
    condApplies "/api/*" "/public/data" = false ∧
    (∀ path : String,
      condApplies "/api/*" path = true ↔
        ∃ rest : List Char, path.data = ("/api/" : String).data ++ rest) := by
  refine ⟨by decide, by decide, ?_⟩
  intro path
  have h1 : strHasSuffix "*" "/api/*" = true := by decide
  have h2 : strDropLast "/api/*" = "/api/" := by decide
  rw [condApplies, if_pos h1, h2, strHasPre, List.isPrefixOf_iff_prefix]
  constructor
  · intro h
    obtain ⟨t, ht⟩ := h
    exact ⟨t, ht.symm⟩
  · intro h
    obtain ⟨t, ht⟩ := h
    exact ⟨t, ht.symm⟩

/-- Witness for condWildcardCharacterization: the characterization applied
at a concrete sub-path, the membership hypothesis discharged by
evaluation. -/
theorem condWildcardCharacterizationWitness :
    ∃ rest : List Char, ("/api/v1/users" : String).data = ("/api/" : String).data ++ rest :=
  (condWildcardCharacterization.2.2 "/api/v1/users").mp (by decide)

/-- Header mutations of the CORS middleware never touch the status code of
the response writer. -/
theorem corsApplyHeaders_status (cfg : CORSConfig) (c : Context) :
    (corsApplyHeaders cfg c).Writer.status = c.Writer.status := by
  unfold corsApplyHeaders Writer.setHeader
  dsimp only
  split <;> rfl

/-- C7. The CORS middleware answers every OPTIONS request itself: the
returned response is the 204 preflight response, the handled flag is set,
the status written on a fresh writer is 204, and the result does not
depend on the wrapped handler (so the wrapped handler is never invoked);
every non-OPTIONS request is passed on to the wrapped handler with the
CORS headers applied. -/
theorem corsPreflightTerminal :
    ∀ (cfg : CORSConfig) (next next2 : HandlerFn) (c : Context),
      (c.Request.Method = "OPTIONS" →
        (CORSWithConfig cfg next c).1 =
          { Success := true, Message := "CORS preflight", Details := none, Code := 204 } ∧
        (CORSWithConfig cfg next c).2.Handled = true ∧
        (c.Writer.status = none → (CORSWithConfig cfg next c).2.Writer.status = some 204) ∧
        CORSWithConfig cfg next c = CORSWithConfig cfg next2 c) ∧
      (c.Request.Method ≠ "OPTIONS" →
        CORSWithConfig cfg next c = next (corsApplyHeaders (corsDefaults cfg) c)) := by
  intro cfg next next2 c
  have hreq : (corsApplyHeaders (corsDefaults cfg) c).Request = c.Request := rfl
  constructor
  · intro h
    have hcond : (corsApplyHeaders (corsDefaults cfg) c).Request.Method = "OPTIONS" := by
      rw [hreq]; exact h
    refine ⟨?_, ?_, ?_, ?_⟩
    · simp [CORSWithConfig, hcond]
    · simp [CORSWithConfig, hcond]
    · intro hw
      have hst : (corsApplyHeaders (corsDefaults cfg) c).Writer.status = none :=
        (corsApplyHeaders_status (corsDefaults cfg) c).trans hw
      simp [CORSWithConfig, hcond, Writer.writeHeader, hst]
    · simp [CORSWithConfig, hcond]
  · intro h
    have hcond : ¬ (corsApplyHeaders (corsDefaults cfg) c).Request.Method = "OPTIONS" := by
      rw [hreq]; exact h
    simp [CORSWithConfig, hcond]

/-- Witness for corsPreflightTerminal: both branches evaluated at concrete
requests, hypotheses discharged by evaluation. -/
theorem corsPreflightTerminalWitness :
    (CORSWithConfig cfgEmptyCORS next0 ctxOptions).2.Handled = true ∧
    (CORSWithConfig cfgEmptyCORS next0 ctxOptions).2.Writer.status = some 204 ∧
    CORSWithConfig cfgEmptyCORS next0 ctxGet =
      next0 (corsApplyHeaders (corsDefaults cfgEmptyCORS) ctxGet) :=
  ⟨((corsPreflightTerminal cfgEmptyCORS next0 next0 ctxOptions).1 rfl).2.1,
   ((corsPreflightTerminal cfgEmptyCORS next0 next0 ctxOptions).1 rfl).2.2.1 rfl,
   (corsPreflightTerminal cfgEmptyCORS next0 next0 ctxGet).2 (by decide)⟩

/-- C8 (amended). On every request whose method is not skipped and that is
not rejected by token validation (no client token, or a validating one),
the CSRF middleware stores the token by assigning into the Params map
(never into the Values store, which is left equal): when Params is nil the
assignment faults, and when Params is allocated the wrapped handler runs
on the context with the token under the configured key in Params. -/
theorem csrfStoresTokenInParams :
    ∀ (cfg : CSRFConfig) (next : HandlerFn) (c : Context),
      ¬ cfg.SkipMethods.contains c.Request.Method →
      (clientTokenOf c cfg = "" ∨
        validateCSRFToken cfg.Secret (getOrCreateCSRFToken c cfg) (clientTokenOf c cfg) = true) →
      (c.Params = none → CSRFWithConfig cfg next c = CSRFOutcome.nilMapFault) ∧
      (∀ ps, c.Params = some ps →
        CSRFWithConfig cfg next c =
          CSRFOutcome.passed (next (csrfPassCtx cfg c ps)).1 (next (csrfPassCtx cfg c ps)).2 ∧
        (csrfPassCtx cfg c ps).Values = c.Values ∧
        (csrfPassCtx cfg c ps).Params =
          some (setAssoc ps cfg.ContextKey (getOrCreateCSRFToken c cfg))) := by
  intro cfg next c h1 h2
  have hneg : ¬ (clientTokenOf c cfg ≠ "" ∧
      validateCSRFToken cfg.Secret (getOrCreateCSRFToken c cfg) (clientTokenOf c cfg) = false) := by
    rcases h2 with h | h
    · exact fun hc => hc.1 h
    · intro hc
      rw [h] at hc
      cases hc.2
  have h1m : c.Request.Method ∉ cfg.SkipMethods := by simpa using h1
  constructor
  · intro hp
    simp [CSRFWithConfig, h1m, hneg, hp]
  · intro ps hp
    refine ⟨?_, rfl, rfl⟩
    simp [CSRFWithConfig, h1m, hneg, hp, csrfPassCtx]

/-- Witness for csrfStoresTokenInParams: the nil-Params branch evaluated
at the concrete no-token POST context. -/
theorem csrfStoresTokenInParamsWitness :
    CSRFWithConfig defaultCSRFConfig next0 ctxNoTok = CSRFOutcome.nilMapFault :=
  (csrfStoresTokenInParams defaultCSRFConfig next0 ctxNoTok (by decide)
    (Or.inl (by decide))).1 rfl

/-- Counterexample to C8 as stated: a request with an unsafe method on a
Context whose Params map is nil for which the assignment does not fault -
the supplied token fails validation, so the middleware completes normally
with the 403 rejection before ever reaching the Params assignment. -/
theorem csrfInvalidTokenNoFault :
    ¬ defaultCSRFConfig.SkipMethods.contains ctxEvil.Request.Method ∧
    ctxEvil.Params = none ∧
    CSRFWithConfig defaultCSRFConfig next0 ctxEvil ≠ CSRFOutcome.nilMapFault := by
  refine ⟨by decide, by decide, by decide⟩

/-- C9 (amended). The CSRF middleware produces its rejection outcome only
when the client supplied a token that fails validation; and on every
request whose method is not skipped, that carries no token in header or
cookie, and whose Context has an allocated Params map, no validation
occurs and the wrapped handler is invoked on the token-carrying context. -/
theorem csrfRejectOnlyOnInvalidToken :
    ∀ (cfg : CSRFConfig) (next : HandlerFn) (c : Context),
      (∀ r cr, CSRFWithConfig cfg next c = CSRFOutcome.rejected r cr →
        clientTokenOf c cfg ≠ "" ∧
        validateCSRFToken cfg.Secret (getOrCreateCSRFToken c cfg) (clientTokenOf c cfg) = false) ∧
      (∀ ps, ¬ cfg.SkipMethods.contains c.Request.Method →
        clientTokenOf c cfg = "" →
        c.Params = some ps →
        CSRFWithConfig cfg next c =
          CSRFOutcome.passed (next (csrfPassCtx cfg c ps)).1 (next (csrfPassCtx cfg c ps)).2) := by
  intro cfg next c
  constructor
  · intro r cr h
    by_cases hskip : cfg.SkipMethods.contains c.Request.Method
    · have hs : c.Request.Method ∈ cfg.SkipMethods := by simpa using hskip
      simp [CSRFWithConfig, hs] at h
    · have hs : c.Request.Method ∉ cfg.SkipMethods := by simpa using hskip
      by_cases hrej : clientTokenOf c cfg ≠ "" ∧
        validateCSRFToken cfg.Secret (getOrCreateCSRFToken c cfg) (clientTokenOf c cfg) = false
      · exact hrej
      · exfalso
        cases hp : c.Params with
        | none => simp [CSRFWithConfig, hs, hrej, hp] at h
        | some ps => simp [CSRFWithConfig, hs, hrej, hp] at h
  · intro ps hskip htok hp
    have hs : c.Request.Method ∉ cfg.SkipMethods := by simpa using hskip
    have hneg : ¬ (clientTokenOf c cfg ≠ "" ∧
        validateCSRFToken cfg.Secret (getOrCreateCSRFToken c cfg) (clientTokenOf c cfg) = false) :=
      fun hc => hc.1 htok
    simp [CSRFWithConfig, hs, hneg, hp, csrfPassCtx]

/-- Witness for csrfRejectOnlyOnInvalidToken: the no-token pass branch
evaluated at the concrete POST context with an allocated Params map. -/
theorem csrfRejectOnlyOnInvalidTokenWitness :
    CSRFWithConfig defaultCSRFConfig next0 ctxNoTokP =
      CSRFOutcome.passed (next0 (csrfPassCtx defaultCSRFConfig ctxNoTokP [])).1
        (next0 (csrfPassCtx defaultCSRFConfig ctxNoTokP [])).2 :=
  (csrfRejectOnlyOnInvalidToken defaultCSRFConfig next0 ctxNoTokP).2 []
    (by decide) (by decide) rfl

/-- Counterexample to C9 as stated: an unsafe-method request carrying no
token for which the wrapped handler is nevertheless not invoked - the
Context has a nil Params map, so the token assignment faults before the
handler could run. -/
theorem csrfNoTokenNilParamsNotPassed :
    clientTokenOf ctxNoTok defaultCSRFConfig = "" ∧
    ¬ defaultCSRFConfig.SkipMethods.contains ctxNoTok.Request.Method ∧
    CSRFWithConfig defaultCSRFConfig next0 ctxNoTok = CSRFOutcome.nilMapFault := by
  refine ⟨by decide, by decide, by decide⟩

/-- C10. bindFormToStruct errors on a destination that is not a pointer to
a struct, and its field loop relates every input field to its output
field: a field that is unsettable, dash-tagged, or whose form value is
absent or empty comes out unchanged, and any field that changed was
settable, not dash-tagged, and had a non-empty matching form value. -/
theorem bindFormFrame :
    (∀ values, bindFormToStruct values GoValue.notStructPtr =
      (GoValue.notStructPtr, some "destination must be a pointer to struct")) ∧
    (∀ (values : List (String × String)) (fs : List GoField),
      List.Forall₂
        (fun f f1 =>
          ((¬ f.canSet ∨ tagNameOf f = "-" ∨ formGet values (tagNameOf f) = "") → f1 = f) ∧
          (f1 ≠ f → f.canSet ∧ tagNameOf f ≠ "-" ∧ formGet values (tagNameOf f) ≠ ""))
        fs (bindFields values fs).1) := by
  refine ⟨fun values => rfl, ?_⟩
  intro values fs
  induction fs with
  | nil => simp [bindFields]
  | cons f rest ih =>
    by_cases hc : f.canSet = true
    · by_cases ht : tagNameOf f = "-"
      · have hstep : (bindFields values (f :: rest)).1 = f :: (bindFields values rest).1 := by
          simp [bindFields, hc, ht]
        rw [hstep]
        exact List.Forall₂.cons ⟨fun _ => rfl, fun hne => absurd rfl hne⟩ ih
      · by_cases hv : formGet values (tagNameOf f) = ""
        · have hstep : (bindFields values (f :: rest)).1 = f :: (bindFields values rest).1 := by
            simp [bindFields, hc, ht, hv]
          rw [hstep]
          exact List.Forall₂.cons ⟨fun _ => rfl, fun hne => absurd rfl hne⟩ ih
        · cases hset : setFieldValue f (formGet values (tagNameOf f)) with
          | error e =>
            have hstep : (bindFields values (f :: rest)).1 = f :: rest := by
              simp [bindFields, hc, ht, hv, hset]
            rw [hstep]
            refine List.Forall₂.cons ⟨fun _ => rfl, fun hne => absurd rfl hne⟩ ?_
            exact List.forall₂_same.mpr (fun x _ => ⟨fun _ => rfl, fun hne => absurd rfl hne⟩)
          | ok f1 =>
            have hstep : (bindFields values (f :: rest)).1 = f1 :: (bindFields values rest).1 := by
              simp [bindFields, hc, ht, hv, hset]
            rw [hstep]
            refine List.Forall₂.cons ⟨?_, ?_⟩ ih
            · intro hskip
              rcases hskip with h | h | h
              · exact absurd hc h
              · exact absurd h ht
              · exact absurd h hv
            · intro _
              exact ⟨hc, ht, hv⟩
    · have hstep : (bindFields values (f :: rest)).1 = f :: (bindFields values rest).1 := by
        simp [bindFields, hc]
      rw [hstep]
      exact List.Forall₂.cons ⟨fun _ => rfl, fun hne => absurd rfl hne⟩ ih

/-- Witness for bindFormFrame: the error conjunct applied at the concrete
empty form. -/
theorem bindFormFrameWitness :
    bindFormToStruct [] GoValue.notStructPtr =
      (GoValue.notStructPtr, some "destination must be a pointer to struct") :=
  bindFormFrame.1 []

end Falcon
